import Mathlib

/-!
Verification development for the transformer layer of `rasterio/transform.py`.

Numeric values are modelled by exact rationals (`ℚ`); Python exceptions by an
explicit `Exc` sum type threaded through `Except`; numpy scalars and 1-d / 2-d
arrays by the `PyVal` sum type with numpy broadcasting over shapes.
-/

/-- Python exception classes that the code under study can raise or catch.
`transformNotInvertibleError` is the `affine` library exception raised by
inverting a degenerate transform; it is unrelated to `TransformError`. -/
inductive Exc where
  | transformError (msg : String)
  | transformNotInvertibleError (msg : String)
  | typeError (msg : String)
  | valueError (msg : String)
deriving DecidableEq, Repr

/-- An affine transform, six coefficients as in the `affine` package:
x y coordinates map by x col + b row + c etc. -/
structure Affine where
  a : ℚ
  b : ℚ
  c : ℚ
  d : ℚ
  e : ℚ
  f : ℚ
deriving DecidableEq, Repr

namespace Affine

/-- Apply the homogeneous matrix [[a,b,c],[d,e,f],[0,0,1]] to a point. -/
def apply (T : Affine) (x y : ℚ) : ℚ × ℚ :=
  (T.a * x + T.b * y + T.c, T.d * x + T.e * y + T.f)

/-- Matrix product of two affine transforms (composition, left acts second). -/
def mul (T U : Affine) : Affine :=
  ⟨T.a * U.a + T.b * U.d, T.a * U.b + T.b * U.e, T.a * U.c + T.b * U.f + T.c,
   T.d * U.a + T.e * U.d, T.d * U.b + T.e * U.e, T.d * U.c + T.e * U.f + T.f⟩

/-- Model of `Affine.translation(tx, ty)` from the affine package. -/
def translation (tx ty : ℚ) : Affine := ⟨1, 0, tx, 0, 1, ty⟩

/-- Model of `Affine.scale(sx, sy)` from the affine package. -/
def scale (sx sy : ℚ) : Affine := ⟨sx, 0, 0, 0, sy, 0⟩

/-- Model of `Affine.identity()`; the module constant IDENTITY. -/
def identity : Affine := ⟨1, 0, 0, 0, 1, 0⟩

/-- Determinant, as in the affine package: `a * e - b * d`. -/
def det (T : Affine) : ℚ := T.a * T.e - T.b * T.d

/-- Model of `Affine.__invert__`: raises `TransformNotInvertibleError` on a degenerate
transform, otherwise returns the inverse with the package's coefficient
formulas. -/
def inv (T : Affine) : Except Exc Affine :=
  if T.det = 0 then
    .error (.transformNotInvertibleError "Cannot invert degenerate transform")
  else
    let idet := 1 / T.det
    let ra := T.e * idet
    let rb := -T.b * idet
    let rd := -T.d * idet
    let re := T.a * idet
    .ok ⟨ra, rb, -T.c * ra - T.f * rb, rd, re, -T.c * rd - T.f * re⟩

end Affine

/-- Model of `from_origin(west, north, xsize, ysize)`:
`Affine.translation(west, north) * Affine.scale(xsize, -ysize)`. -/
def from_origin (west north xsize ysize : ℚ) : Affine :=
  (Affine.translation west north).mul (Affine.scale xsize (-ysize))

/-- Model of `from_bounds(west, south, east, north, width, height)`. -/
def from_bounds (west south east north width height : ℚ) : Affine :=
  (Affine.translation west north).mul
    (Affine.scale ((east - west) / width) ((south - north) / height))

/-- Model of `array_bounds(height, width, transform)`: axis-aligned fast path when
`b == d == 0`, otherwise min/max over the four transformed corners. -/
def array_bounds (height width : ℚ) (T : Affine) : ℚ × ℚ × ℚ × ℚ :=
  if T.b = 0 ∧ T.d = 0 then
    (T.c, T.f + T.e * height, T.c + T.a * width, T.f)
  else
    let p0 := (T.c, T.f)
    let p1 := T.apply 0 height
    let p2 := T.apply width height
    let p3 := T.apply width 0
    (min (min (min p0.1 p1.1) p2.1) p3.1,
     min (min (min p0.2 p1.2) p2.2) p3.2,
     max (max (max p0.1 p1.1) p2.1) p3.1,
     max (max (max p0.2 p1.2) p2.2) p3.2)

/-- A Python value passed as a coordinate argument: a numeric scalar, a 1-d
sequence, or a 2-d nested sequence (used only to exercise the ndim check). -/
inductive PyVal where
  | scalar (q : ℚ)
  | arr (l : List ℚ)
  | arr2 (m : List (List ℚ))
deriving DecidableEq, Repr

namespace PyVal

/-- Model of `hasattr(v, "__iter__")`: true for sequences/arrays, false for scalars. -/
def hasIter : PyVal → Bool
  | scalar _ => false
  | arr _ => true
  | arr2 _ => true

/-- numpy shape of the value (row-major; `arr2` is assumed rectangular). -/
def shape : PyVal → List Nat
  | scalar _ => []
  | arr l => [l.length]
  | arr2 m => [m.length, (m.headD []).length]

/-- Model of `np.atleast_1d`: promote a scalar to a one-element 1-d array. -/
def atleast1d : PyVal → PyVal
  | scalar q => arr [q]
  | v => v

end PyVal

/-- One dimension of numpy broadcasting: equal, or one side is 1. -/
def bcastDim (m n : Nat) : Option Nat :=
  if m = n then some m
  else if m = 1 then some n
  else if n = 1 then some m
  else none

/-- Broadcast two right-aligned-reversed shape lists. -/
def bcastShapeRev : List Nat → List Nat → Option (List Nat)
  | [], t => some t
  | s, [] => some s
  | x :: s, y :: t => do
    let d ← bcastDim x y
    let r ← bcastShapeRev s t
    some (d :: r)

/-- numpy broadcasting of two shapes (dimensions aligned on the right). -/
def bcastShape (s t : List Nat) : Option (List Nat) :=
  (bcastShapeRev s.reverse t.reverse).map List.reverse

/-- Materialize a scalar or 1-d value at broadcast length `n` (the
`pts[i] = v` broadcasting assignment; only reached for compatible 1-d data). -/
def toLen (v : PyVal) (n : Nat) : List ℚ :=
  match v with
  | .scalar q => List.replicate n q
  | .arr l => if l.length = n then l else List.replicate n (l.headD 0)
  | .arr2 _ => []

/-- Model of `TransformerBase._ensure_arr_input(xs, ys, zs)`: `atleast_1d` on `xs`,
numpy-broadcast the shapes (a broadcast `ValueError` becomes a
`TransformError`), reject a broadcast result that is not 1-dimensional, and
return three length-n columns, with zeros for a missing `zs`. -/
def ensureArrInput (xs ys : PyVal) (zs : Option PyVal) :
    Except Exc (List ℚ × List ℚ × List ℚ) := do
  let xs1 := xs.atleast1d
  let bshape ←
    match (do
        let s ← bcastShape xs1.shape ys.shape
        match zs with
        | none => some s
        | some z => bcastShape s z.shape : Option (List Nat)) with
    | none =>
      .error (.transformError "shape mismatch: objects cannot be broadcast to a single shape")
    | some s => .ok s
  if bshape.length ≠ 1 then
    .error (.transformError "Invalid dimensions after broadcast")
  else
    let n := bshape.headD 0
    .ok (toLen xs1 n, toLen ys n,
      match zs with
      | none => List.replicate n 0
      | some z => toLen z n)

/-- Model of `AffineTransformer.__init__`: the only check is `isinstance(affine_transform,
Affine)`; in this typed model the argument is always an `Affine`, so
construction always succeeds, with no invertibility requirement. -/
def affineTransformerInit (T : Affine) : Except Exc Affine := .ok T

/-- Model of `AffineTransformer._transform(xs, ys, zs, transform_direction)`: forward
applies the matrix; reverse first inverts it with `~` (which raises
`TransformNotInvertibleError` on a singular matrix) and applies the inverse.
`zs` is ignored: the homogeneous input matrix rows are xs, ys, 1.
Returns (output xs, output ys). -/
def affineTransform (T : Affine) (xs ys : List ℚ) (dir : Bool) :
    Except Exc (List ℚ × List ℚ) := do
  let M ← if dir then .ok T else T.inv
  let pts := List.zipWith (fun x y => M.apply x y) xs ys
  .ok (pts.map Prod.fst, pts.map Prod.snd)

/-- Forward direction marker (`TransformDirection.forward`). -/
def forwardDir : Bool := true

/-- Reverse direction marker (`TransformDirection.reverse`). -/
def reverseDir : Bool := false

/-- An `except TypeError: raise TransformError(...)` handler around a
computation: only `typeError` is converted; every other exception
propagates unchanged. -/
def catchTypeError (r : Except Exc α) : Except Exc α :=
  match r with
  | .error (.typeError _) => .error (.transformError "Invalid inputs")
  | other => other

/-- Resolve the `offset` keyword to the (col-fraction, row-fraction) pair of
`TransformerBase.xy`; anything unrecognized raises `TransformError`. -/
def offsetOf (offset : String) : Except Exc (ℚ × ℚ) :=
  if offset = "center" then .ok (1/2, 1/2)
  else if offset = "ul" then .ok (0, 0)
  else if offset = "ur" then .ok (1, 0)
  else if offset = "ll" then .ok (0, 1)
  else if offset = "lr" then .ok (1, 1)
  else .error (.transformError "Invalid offset")

/-- Result of `xy`: a plain scalar pair, or two ordered lists (xs then ys). -/
inductive XYRes where
  | pair (x y : ℚ)
  | lists (xs ys : List ℚ)
deriving DecidableEq, Repr

/-- Result of `rowcol`: a scalar pair or two lists, rows before cols. -/
inductive RCRes where
  | pair (row col : ℤ)
  | lists (rows cols : List ℤ)
deriving DecidableEq, Repr

/-- Model of `TransformerBase.xy(rows, cols, zs, offset)` for the affine transformer:
record whether `rows` is iterable, validate/broadcast, resolve the offset,
shift (cols, rows) by the offset translation in the forward direction, apply
the transformer forward, and shape the result: a scalar pair when exactly one
point resulted and `rows` was not iterable, else two lists. -/
def xyM (T : Affine) (rows cols : PyVal) (zs : Option PyVal)
    (offset : String) : Except Exc XYRes := do
  let asArr := rows.hasIter
  let (rowsL, colsL, _zsL) ← ensureArrInput rows cols zs
  let (coff, roff) ← offsetOf offset
  let res ← catchTypeError (do
    let (ocols, orows) ←
      affineTransform (Affine.translation coff roff) colsL rowsL forwardDir
    let (nxs, nys) ← affineTransform T ocols orows forwardDir
    if nxs.length = 1 ∧ asArr = false then
      .ok (XYRes.pair (nxs.headD 0) (nys.headD 0))
    else
      .ok (XYRes.lists nxs nys))
  .ok res

/-- Model of `TransformerBase.rowcol(xs, ys, zs, op, precision)` for the affine
transformer. The returned Bool records whether the deprecation warning for a
non-None `precision` was emitted; `precision` has no other effect. `op`
converts each continuous position to an integer index. Only a `TypeError`
from the reverse transform is converted to `TransformError`; the shaping is a
scalar (row, col) pair when none of xs, ys, zs was iterable, else two lists
with the rows first. -/
def rowcolM (T : Affine) (xs ys : PyVal) (zs : Option PyVal)
    (op : ℚ → ℤ) (precision : Option ℚ) : Bool × Except Exc RCRes :=
  (precision.isSome, do
    let asArr := xs.hasIter || ys.hasIter ||
      (match zs with | none => false | some z => z.hasIter)
    let (xsL, ysL, _zsL) ← ensureArrInput xs ys zs
    let (ncols, nrows) ← catchTypeError (affineTransform T xsL ysL reverseDir)
    if asArr then
      .ok (RCRes.lists (nrows.map op) (ncols.map op))
    else
      .ok (RCRes.pair (op (nrows.headD 0)) (op (ncols.headD 0))))

/-- Module-level `xy(transform, rows, cols, zs, offset)`: builds an
`AffineTransformer` for an `Affine` argument and delegates to its `xy`. -/
def xyF (T : Affine) (rows cols : PyVal) (zs : Option PyVal)
    (offset : String) : Except Exc XYRes := do
  let t ← affineTransformerInit T
  xyM t rows cols zs offset

/-- Module-level `rowcol(transform, xs, ys, zs, op, precision)`: warns when
`precision` is not None, then delegates to the transformer method with the
method's own `precision` left at None. The Bool is true when either level
emitted the deprecation warning. -/
def rowcolF (T : Affine) (xs ys : PyVal) (zs : Option PyVal)
    (op : ℚ → ℤ) (precision : Option ℚ) : Bool × Except Exc RCRes :=
  match affineTransformerInit T with
  | .error e => (precision.isSome, .error e)
  | .ok t =>
    let inner := rowcolM t xs ys zs op none
    (precision.isSome || inner.1, inner.2)

/-- An element of the sequence handed to `GCPTransformer`: either a genuine
`GroundControlPoint` or some other object. -/
inductive GCPElem where
  | gcp
  | notGCP
deriving DecidableEq, Repr

/-- Modelled from the spec: `GCPTransformerBase.__init__` lives in
`rasterio/_transform` which is not under src/; per the spec, construction
with an empty GCP sequence fails with a ValueError-class error before any
external resource is acquired, and a non-empty well-formed sequence
succeeds. -/
def gcpTransformerBaseInit (gcps : List GCPElem) : Except Exc Unit :=
  if gcps.isEmpty then .error (.valueError "empty GCPs") else .ok ()

/-- Model of `GCPTransformer.__init__(gcps, tps)`: raises `ValueError` when the
sequence is non-empty and its first element is not a `GroundControlPoint`,
otherwise delegates to the base constructor. -/
def gcpTransformerInit (gcps : List GCPElem) : Except Exc Unit :=
  if gcps.length ≠ 0 ∧ gcps.headD .gcp ≠ .gcp then
    .error (.valueError "GCPTransformer requires sequence of GroundControlPoint")
  else gcpTransformerBaseInit gcps

/-- The object handed to `RPCTransformer`: an `RPC` instance, a dict of RPC
coefficients, or some other object. -/
inductive RPCArg where
  | rpcModel
  | dictV
  | otherObj
deriving DecidableEq, Repr

/-- Modelled from the spec: `RPCTransformerBase.__init__` lives in
`rasterio/_transform` which is not under src/; per the spec, a well-formed
RPC model constructs successfully. -/
def rpcTransformerBaseInit (_r : RPCArg) : Except Exc Unit := .ok ()

/-- Model of `RPCTransformer.__init__(rpcs, **rpc_options)`: raises `ValueError` when
the argument is neither an `RPC` nor a dict, otherwise delegates to the base
constructor. -/
def rpcTransformerInit (r : RPCArg) : Except Exc Unit :=
  if r = .rpcModel ∨ r = .dictV then rpcTransformerBaseInit r
  else .error (.valueError "RPCTransformer requires RPC")

/-- Check whether a result is a raised `TransformError`. -/
def exceptIsTransformError : Except Exc α → Bool
  | .error (.transformError _) => true
  | _ => false

theorem offsetOf_center : offsetOf "center" = .ok (1/2, 1/2) := rfl

theorem offsetOf_ul : offsetOf "ul" = .ok (0, 0) := rfl

theorem offsetOf_lr : offsetOf "lr" = .ok (1, 1) := rfl

theorem floor_eq_of_eq_intCast {q : ℚ} {z : ℤ} (h : q = z) : ⌊q⌋ = z := by
  rw [h]; exact Int.floor_intCast z

theorem affine_inv_of_det_ne (T : Affine) (h : T.det ≠ 0) :
    T.inv = .ok ⟨T.e * (1/T.det), -T.b * (1/T.det),
      -T.c * (T.e * (1/T.det)) - T.f * (-T.b * (1/T.det)),
      -T.d * (1/T.det), T.a * (1/T.det),
      -T.c * (-T.d * (1/T.det)) - T.f * (T.a * (1/T.det))⟩ := by
  simp [Affine.inv, h]

/-- C1: for every invertible affine transform and every integer (row, col),
`xy` with offset ul followed by `rowcol` with op = floor on the resulting
geographic coordinates returns exactly the original (row, col). -/
theorem c1_xy_rowcol_roundtrip (T : Affine) (h : T.det ≠ 0) (row col : ℤ) :
    ∃ x y : ℚ,
      xyF T (.scalar row) (.scalar col) none "ul" = .ok (.pair x y) ∧
      rowcolF T (.scalar x) (.scalar y) none (fun q => ⌊q⌋) none =
        (false, .ok (.pair row col)) := by
  refine ⟨T.a * col + T.b * row + T.c, T.d * col + T.e * row + T.f, ?_, ?_⟩
  · norm_num [xyF, xyM, affineTransformerInit, ensureArrInput, PyVal.atleast1d,
      PyVal.shape, bcastShape, bcastShapeRev, bcastDim, toLen, offsetOf_ul,
      catchTypeError, affineTransform, forwardDir, Affine.translation,
      Affine.apply, PyVal.hasIter, Bind.bind, Except.bind, Option.bind]
  · norm_num [rowcolF, rowcolM, affineTransformerInit, ensureArrInput,
      PyVal.atleast1d, PyVal.shape, bcastShape, bcastShapeRev, bcastDim, toLen,
      catchTypeError, affineTransform, reverseDir, affine_inv_of_det_ne T h,
      Affine.apply, PyVal.hasIter, Bind.bind, Except.bind, Option.bind]
    constructor
    · exact floor_eq_of_eq_intCast (by field_simp; rw [Affine.det]; ring)
    · exact floor_eq_of_eq_intCast (by field_simp; rw [Affine.det]; ring)

/-- Witness for C1 at T = Affine(2, 0, 3, 0, -2, 10), (row, col) = (7, 5). -/
theorem c1_xy_rowcol_roundtrip_witness :
    ∃ x y : ℚ,
      xyF (Affine.mk 2 0 3 0 (-2) 10) (.scalar 7) (.scalar 5) none "ul" =
        .ok (.pair x y) ∧
      rowcolF (Affine.mk 2 0 3 0 (-2) 10) (.scalar x) (.scalar y) none
        (fun q => ⌊q⌋) none = (false, .ok (.pair 7 5)) :=
  c1_xy_rowcol_roundtrip (Affine.mk 2 0 3 0 (-2) 10)
    (by norm_num [Affine.det]) 7 5

/-- C6: the offset table for from_origin(0, 10, 2, 2) — ul gives (0, 10),
center gives (1, 9), lr gives (2, 8) — and any offset string other than the
five recognized values raises TransformError for every transform. -/
theorem c6_offset_table (T : Affine) (r c : ℚ) (off : String)
    (h1 : off ≠ "center") (h2 : off ≠ "ul") (h3 : off ≠ "ur")
    (h4 : off ≠ "ll") (h5 : off ≠ "lr") :
    xyF (from_origin 0 10 2 2) (.scalar 0) (.scalar 0) none "ul" =
      .ok (.pair 0 10) ∧
    xyF (from_origin 0 10 2 2) (.scalar 0) (.scalar 0) none "center" =
      .ok (.pair 1 9) ∧
    xyF (from_origin 0 10 2 2) (.scalar 0) (.scalar 0) none "lr" =
      .ok (.pair 2 8) ∧
    xyF T (.scalar r) (.scalar c) none off =
      .error (.transformError "Invalid offset") := by
  have hoff : offsetOf off = .error (.transformError "Invalid offset") := by
    simp [offsetOf, h1, h2, h3, h4, h5]
  refine ⟨?_, ?_, ?_, ?_⟩
  · norm_num [xyF, xyM, affineTransformerInit, ensureArrInput,
        PyVal.atleast1d, PyVal.shape, bcastShape, bcastShapeRev, bcastDim,
        toLen, offsetOf_ul, offsetOf_center, offsetOf_lr,
        from_origin, Affine.mul, Affine.translation,
        Affine.scale, catchTypeError, affineTransform, forwardDir,
        Affine.apply, PyVal.hasIter, Bind.bind, Except.bind, Option.bind]
  · norm_num [xyF, xyM, affineTransformerInit, ensureArrInput,
        PyVal.atleast1d, PyVal.shape, bcastShape, bcastShapeRev, bcastDim,
        toLen, offsetOf_ul, offsetOf_center, offsetOf_lr,
        from_origin, Affine.mul, Affine.translation,
        Affine.scale, catchTypeError, affineTransform, forwardDir,
        Affine.apply, PyVal.hasIter, Bind.bind, Except.bind, Option.bind]
  · norm_num [xyF, xyM, affineTransformerInit, ensureArrInput,
        PyVal.atleast1d, PyVal.shape, bcastShape, bcastShapeRev, bcastDim,
        toLen, offsetOf_ul, offsetOf_center, offsetOf_lr,
        from_origin, Affine.mul, Affine.translation,
        Affine.scale, catchTypeError, affineTransform, forwardDir,
        Affine.apply, PyVal.hasIter, Bind.bind, Except.bind, Option.bind]
  · norm_num [xyF, xyM, affineTransformerInit, ensureArrInput,
      PyVal.atleast1d, PyVal.shape, bcastShape, bcastShapeRev, bcastDim,
      toLen, hoff, catchTypeError, affineTransform, forwardDir,
      Affine.apply, PyVal.hasIter, Bind.bind, Except.bind, Option.bind]

/-- Witness for C6 with the unrecognized offset string bogus. -/
theorem c6_offset_table_witness :
    xyF (from_origin 0 10 2 2) (.scalar 0) (.scalar 0) none "ul" =
      .ok (.pair 0 10) ∧
    xyF (from_origin 0 10 2 2) (.scalar 0) (.scalar 0) none "center" =
      .ok (.pair 1 9) ∧
    xyF (from_origin 0 10 2 2) (.scalar 0) (.scalar 0) none "lr" =
      .ok (.pair 2 8) ∧
    xyF Affine.identity (.scalar 0) (.scalar 0) none "bogus" =
      .error (.transformError "Invalid offset") :=
  c6_offset_table Affine.identity 0 0 "bogus"
    (by decide) (by decide) (by decide) (by decide) (by decide)

/-- C7: array_bounds(2, 2, from_origin(0, 10, 1, 1)) = (0, 8, 2, 10). -/
theorem c7_array_bounds_example :
    array_bounds 2 2 (from_origin 0 10 1 1) = (0, 8, 2, 10) := by
  norm_num [array_bounds, from_origin, Affine.mul, Affine.translation,
    Affine.scale]

/-- Counterexample to C2: xy(T, [0, 1], [0]) does not raise; numpy broadcasts
the length-1 cols sequence against the length-2 rows sequence and two points
are returned. -/
theorem c2_counterexample :
    xyF Affine.identity (.arr [0, 1]) (.arr [0]) none "center" =
      .ok (.lists [1/2, 1/2] [1/2, 3/2]) := by
  norm_num [xyF, xyM, affineTransformerInit, ensureArrInput, PyVal.atleast1d,
    PyVal.shape, bcastShape, bcastShapeRev, bcastDim, toLen, offsetOf_center,
    catchTypeError, affineTransform, forwardDir, Affine.translation,
    Affine.apply, Affine.identity, PyVal.hasIter, List.replicate_succ,
    Bind.bind, Except.bind, Option.bind]

/-- C2 as amended: sequences whose lengths are incompatible under numpy
broadcasting (unequal and neither equal to one) make xy raise TransformError,
and so does any input whose broadcast result has more than one dimension;
a length-1 sequence, however, broadcasts successfully. -/
theorem c2_shape_mismatch (T : Affine) (xs ys : List ℚ) (m : List (List ℚ))
    (h1 : xs.length ≠ ys.length) (h2 : xs.length ≠ 1) (h3 : ys.length ≠ 1) :
    (∃ msg, xyF T (.arr xs) (.arr ys) none "center" =
      .error (.transformError msg)) ∧
    (∃ msg, xyF T (.arr2 m) (.arr ys) none "center" =
      .error (.transformError msg)) := by
  constructor
  · refine ⟨"shape mismatch: objects cannot be broadcast to a single shape", ?_⟩
    norm_num [xyF, xyM, affineTransformerInit, ensureArrInput, PyVal.atleast1d,
      PyVal.shape, bcastShape, bcastShapeRev, bcastDim, h1, h2, h3,
      Bind.bind, Except.bind, Option.bind]
  · cases hbd : bcastDim (m.head?.getD []).length ys.length with
    | none =>
      refine ⟨"shape mismatch: objects cannot be broadcast to a single shape", ?_⟩
      norm_num [xyF, xyM, affineTransformerInit, ensureArrInput,
        PyVal.atleast1d, PyVal.shape, bcastShape, bcastShapeRev,
        List.headD_eq_head?, hbd, Bind.bind, Except.bind, Option.bind]
    | some d =>
      refine ⟨"Invalid dimensions after broadcast", ?_⟩
      norm_num [xyF, xyM, affineTransformerInit, ensureArrInput,
        PyVal.atleast1d, PyVal.shape, bcastShape, bcastShapeRev,
        List.headD_eq_head?, hbd, Bind.bind, Except.bind, Option.bind]

/-- Witness for the amended C2 at xs = [0, 1, 2], ys = [4, 5], which cannot
be broadcast, and a 2-d first argument. -/
theorem c2_shape_mismatch_witness :
    (([0, 1, 2] : List ℚ).length ≠ ([4, 5] : List ℚ).length ∧
     ([0, 1, 2] : List ℚ).length ≠ 1 ∧ ([4, 5] : List ℚ).length ≠ 1) ∧
    (∃ msg, xyF Affine.identity (.arr [0, 1, 2]) (.arr [4, 5]) none "center" =
      .error (.transformError msg)) ∧
    (∃ msg, xyF Affine.identity (.arr2 [[6], [7]]) (.arr [4, 5]) none "center" =
      .error (.transformError msg)) := by
  refine ⟨⟨by decide, by decide, by decide⟩, ?_, ?_⟩
  · exact (c2_shape_mismatch Affine.identity [0, 1, 2] [4, 5] [[6], [7]]
      (by decide) (by decide) (by decide)).1
  · exact (c2_shape_mismatch Affine.identity [0, 1, 2] [4, 5] [[6], [7]]
      (by decide) (by decide) (by decide)).2

/-- C3: a GCP transformer built from an empty sequence, or from a sequence
whose first element is not a GroundControlPoint, fails with ValueError, and
an RPC transformer built from an object that is neither an RPC nor a dict
fails with ValueError; in each case no transformer (hence no external
resource) is produced. -/
theorem c3_construction_errors :
    gcpTransformerInit [] = .error (.valueError "empty GCPs") ∧
    (∀ l : List GCPElem, gcpTransformerInit (.notGCP :: l) =
      .error (.valueError
        "GCPTransformer requires sequence of GroundControlPoint")) ∧
    rpcTransformerInit .otherObj =
      .error (.valueError "RPCTransformer requires RPC") := by
  refine ⟨rfl, fun l => ?_, rfl⟩
  simp [gcpTransformerInit]

/-- Counterexample to C4: on a singular affine transform, rowcol raises the
affine package exception TransformNotInvertibleError, which is not a
TransformError: only TypeError is converted by the rowcol handler. -/
theorem c4_counterexample :
    rowcolF (Affine.mk 0 0 0 0 0 0) (.scalar 0) (.scalar 0) none
      (fun q => ⌊q⌋) none =
      (false, .error (.transformNotInvertibleError
        "Cannot invert degenerate transform")) ∧
    exceptIsTransformError
      (rowcolF (Affine.mk 0 0 0 0 0 0) (.scalar 0) (.scalar 0) none
        (fun q => ⌊q⌋) none).2 = false := by
  constructor
  · norm_num [rowcolF, rowcolM, affineTransformerInit, ensureArrInput,
      PyVal.atleast1d, PyVal.shape, bcastShape, bcastShapeRev, bcastDim, toLen,
      catchTypeError, affineTransform, reverseDir, Affine.inv, Affine.det,
      PyVal.hasIter, Bind.bind, Except.bind, Option.bind]
  · norm_num [rowcolF, rowcolM, affineTransformerInit, ensureArrInput,
      PyVal.atleast1d, PyVal.shape, bcastShape, bcastShapeRev, bcastDim, toLen,
      catchTypeError, affineTransform, reverseDir, Affine.inv, Affine.det,
      PyVal.hasIter, Bind.bind, Except.bind, Option.bind,
      exceptIsTransformError]

/-- C4 as amended: constructing an AffineTransformer never fails, whatever
the matrix; reverse-direction use (rowcol) on a transformer holding a
singular matrix raises TransformNotInvertibleError - the affine package
exception - rather than TransformError. -/
theorem c4_singular_reverse (T : Affine) (h : T.det = 0) (x y : ℚ)
    (op : ℚ → ℤ) :
    affineTransformerInit T = .ok T ∧
    rowcolF T (.scalar x) (.scalar y) none op none =
      (false, .error (.transformNotInvertibleError
        "Cannot invert degenerate transform")) := by
  refine ⟨rfl, ?_⟩
  norm_num [rowcolF, rowcolM, affineTransformerInit, ensureArrInput,
    PyVal.atleast1d, PyVal.shape, bcastShape, bcastShapeRev, bcastDim, toLen,
    catchTypeError, affineTransform, reverseDir, Affine.inv, h,
    PyVal.hasIter, Bind.bind, Except.bind, Option.bind]

/-- Witness for the amended C4 at the singular matrix Affine(1,2,3,2,4,6). -/
theorem c4_singular_reverse_witness :
    (Affine.mk 1 2 3 2 4 6).det = 0 ∧
    (affineTransformerInit (Affine.mk 1 2 3 2 4 6) =
      .ok (Affine.mk 1 2 3 2 4 6) ∧
    rowcolF (Affine.mk 1 2 3 2 4 6) (.scalar 0) (.scalar 0) none
      (fun q => ⌊q⌋) none =
      (false, .error (.transformNotInvertibleError
        "Cannot invert degenerate transform"))) :=
  ⟨by norm_num [Affine.det],
   c4_singular_reverse (Affine.mk 1 2 3 2 4 6) (by norm_num [Affine.det])
     0 0 (fun q => ⌊q⌋)⟩

/-- Counterexample to C5: xy called with a scalar row and a one-element
sequence col returns a plain scalar pair, although the caller did not supply
scalar row and col; xy result shaping ignores the cols argument. -/
theorem c5_counterexample :
    xyF Affine.identity (.scalar 0) (.arr [5]) none "center" =
      .ok (.pair (11/2) (1/2)) := by
  norm_num [xyF, xyM, affineTransformerInit, ensureArrInput, PyVal.atleast1d,
    PyVal.shape, bcastShape, bcastShapeRev, bcastDim, toLen, offsetOf_center,
    catchTypeError, affineTransform, forwardDir, Affine.translation,
    Affine.apply, Affine.identity, PyVal.hasIter,
    Bind.bind, Except.bind, Option.bind]

/-- C5 as amended: xy returns a scalar pair exactly when the rows argument is
non-iterable and one point resulted - the cols argument's iterability is not
consulted - while rowcol returns a scalar pair when none of xs, ys, zs is
iterable and two ordered lists, rows first, when any of them is. -/
theorem c5_result_shaping :
    (∀ (T : Affine) (r c : ℚ), ∃ x y,
      xyF T (.scalar r) (.scalar c) none "center" = .ok (.pair x y)) ∧
    (∀ (T : Affine) (r c : ℚ), ∃ x y,
      xyF T (.scalar r) (.arr [c]) none "center" = .ok (.pair x y)) ∧
    (∀ (T : Affine) (r c : ℚ), ∃ xs ys, xs.length = 1 ∧
      xyF T (.arr [r]) (.scalar c) none "center" = .ok (.lists xs ys)) ∧
    (∀ (T : Affine) (x y : ℚ), T.det ≠ 0 → ∃ row col,
      rowcolF T (.scalar x) (.scalar y) none (fun q => ⌊q⌋) none =
        (false, .ok (.pair row col))) ∧
    (∀ (T : Affine) (x y : ℚ), T.det ≠ 0 → ∃ rows cols,
      rowcolF T (.arr [x]) (.scalar y) none (fun q => ⌊q⌋) none =
        (false, .ok (.lists rows cols))) ∧
    rowcolF Affine.identity (.scalar 5) (.scalar 2) none (fun q => ⌊q⌋) none =
      (false, .ok (.pair 2 5)) := by
  refine ⟨?_, ?_, ?_, ?_, ?_, ?_⟩
  · intro T r c
    refine ⟨T.a * (c + 1/2) + T.b * (r + 1/2) + T.c,
      T.d * (c + 1/2) + T.e * (r + 1/2) + T.f, ?_⟩
    norm_num [xyF, xyM, affineTransformerInit, ensureArrInput, PyVal.atleast1d,
      PyVal.shape, bcastShape, bcastShapeRev, bcastDim, toLen, offsetOf_center,
      catchTypeError, affineTransform, forwardDir, Affine.translation,
      Affine.apply, PyVal.hasIter, Bind.bind, Except.bind, Option.bind]
  · intro T r c
    refine ⟨T.a * (c + 1/2) + T.b * (r + 1/2) + T.c,
      T.d * (c + 1/2) + T.e * (r + 1/2) + T.f, ?_⟩
    norm_num [xyF, xyM, affineTransformerInit, ensureArrInput, PyVal.atleast1d,
      PyVal.shape, bcastShape, bcastShapeRev, bcastDim, toLen, offsetOf_center,
      catchTypeError, affineTransform, forwardDir, Affine.translation,
      Affine.apply, PyVal.hasIter, Bind.bind, Except.bind, Option.bind]
  · intro T r c
    refine ⟨[T.a * (c + 1/2) + T.b * (r + 1/2) + T.c],
      [T.d * (c + 1/2) + T.e * (r + 1/2) + T.f], rfl, ?_⟩
    norm_num [xyF, xyM, affineTransformerInit, ensureArrInput, PyVal.atleast1d,
      PyVal.shape, bcastShape, bcastShapeRev, bcastDim, toLen, offsetOf_center,
      catchTypeError, affineTransform, forwardDir, Affine.translation,
      Affine.apply, PyVal.hasIter, Bind.bind, Except.bind, Option.bind]
  · intro T x y h
    refine ⟨⌊-T.d * (1/T.det) * x + T.a * (1/T.det) * y +
        (-T.c * (-T.d * (1/T.det)) - T.f * (T.a * (1/T.det)))⌋,
      ⌊T.e * (1/T.det) * x + -T.b * (1/T.det) * y +
        (-T.c * (T.e * (1/T.det)) - T.f * (-T.b * (1/T.det)))⌋, ?_⟩
    norm_num [rowcolF, rowcolM, affineTransformerInit, ensureArrInput,
      PyVal.atleast1d, PyVal.shape, bcastShape, bcastShapeRev, bcastDim, toLen,
      catchTypeError, affineTransform, reverseDir, affine_inv_of_det_ne T h,
      Affine.apply, PyVal.hasIter, Bind.bind, Except.bind, Option.bind]
  · intro T x y h
    refine ⟨[⌊-T.d * (1/T.det) * x + T.a * (1/T.det) * y +
        (-T.c * (-T.d * (1/T.det)) - T.f * (T.a * (1/T.det)))⌋],
      [⌊T.e * (1/T.det) * x + -T.b * (1/T.det) * y +
        (-T.c * (T.e * (1/T.det)) - T.f * (-T.b * (1/T.det)))⌋], ?_⟩
    norm_num [rowcolF, rowcolM, affineTransformerInit, ensureArrInput,
      PyVal.atleast1d, PyVal.shape, bcastShape, bcastShapeRev, bcastDim, toLen,
      catchTypeError, affineTransform, reverseDir, affine_inv_of_det_ne T h,
      Affine.apply, PyVal.hasIter, Bind.bind, Except.bind, Option.bind]
  · norm_num [rowcolF, rowcolM, affineTransformerInit, ensureArrInput,
      PyVal.atleast1d, PyVal.shape, bcastShape, bcastShapeRev, bcastDim, toLen,
      catchTypeError, affineTransform, reverseDir, Affine.inv, Affine.det,
      Affine.identity, Affine.apply, PyVal.hasIter,
      Bind.bind, Except.bind, Option.bind]

/-- Witness for the amended C5: the two det-hypothesis conjuncts applied to
the identity transform at (x, y) = (1, 2). -/
theorem c5_result_shaping_witness :
    (∃ row col, rowcolF Affine.identity (.scalar 1) (.scalar 2) none
      (fun q => ⌊q⌋) none = (false, .ok (.pair row col))) ∧
    (∃ rows cols, rowcolF Affine.identity (.arr [1]) (.scalar 2) none
      (fun q => ⌊q⌋) none = (false, .ok (.lists rows cols))) :=
  ⟨c5_result_shaping.2.2.2.1 Affine.identity 1 2
     (by norm_num [Affine.det, Affine.identity]),
   c5_result_shaping.2.2.2.2.1 Affine.identity 1 2
     (by norm_num [Affine.det, Affine.identity])⟩

/-- C8: the deprecated precision parameter of rowcol triggers the deprecation
warning exactly when it is not None and has no effect at all on the returned
value, at both the module level and the method level. -/
theorem c8_precision_noop (T : Affine) (xs ys : PyVal) (zs : Option PyVal)
    (op : ℚ → ℤ) (p : Option ℚ) :
    (rowcolF T xs ys zs op p).2 = (rowcolF T xs ys zs op none).2 ∧
    (rowcolF T xs ys zs op p).1 = p.isSome ∧
    (rowcolM T xs ys zs op p).2 = (rowcolM T xs ys zs op none).2 ∧
    (rowcolM T xs ys zs op p).1 = p.isSome := by
  refine ⟨rfl, ?_, rfl, rfl⟩
  simp [rowcolF, rowcolM, affineTransformerInit]

/-- C9: xy result shaping depends only on the rows argument's iterability -
a scalar row with a one-element cols sequence, or with an iterable zs, still
yields a scalar pair - while rowcol result shaping consults all of xs, ys
and zs: a one-element sequence in ys or in zs forces the two-list form. -/
theorem c9_shaping_iterability :
    (∀ (T : Affine) (r c : ℚ), ∃ x y,
      xyF T (.scalar r) (.arr [c]) none "ul" = .ok (.pair x y)) ∧
    (∀ (T : Affine) (r c z : ℚ), ∃ x y,
      xyF T (.scalar r) (.scalar c) (some (.arr [z])) "ul" = .ok (.pair x y)) ∧
    (∀ (T : Affine) (x y : ℚ), T.det ≠ 0 → ∃ rows cols,
      rowcolF T (.scalar x) (.arr [y]) none (fun q => ⌊q⌋) none =
        (false, .ok (.lists rows cols))) ∧
    (∀ (T : Affine) (x y z : ℚ), T.det ≠ 0 → ∃ rows cols,
      rowcolF T (.scalar x) (.scalar y) (some (.arr [z]))
        (fun q => ⌊q⌋) none = (false, .ok (.lists rows cols))) := by
  refine ⟨?_, ?_, ?_, ?_⟩
  · intro T r c
    refine ⟨T.a * c + T.b * r + T.c, T.d * c + T.e * r + T.f, ?_⟩
    norm_num [xyF, xyM, affineTransformerInit, ensureArrInput, PyVal.atleast1d,
      PyVal.shape, bcastShape, bcastShapeRev, bcastDim, toLen, offsetOf_ul,
      catchTypeError, affineTransform, forwardDir, Affine.translation,
      Affine.apply, PyVal.hasIter, Bind.bind, Except.bind, Option.bind]
  · intro T r c z
    refine ⟨T.a * c + T.b * r + T.c, T.d * c + T.e * r + T.f, ?_⟩
    norm_num [xyF, xyM, affineTransformerInit, ensureArrInput, PyVal.atleast1d,
      PyVal.shape, bcastShape, bcastShapeRev, bcastDim, toLen, offsetOf_ul,
      catchTypeError, affineTransform, forwardDir, Affine.translation,
      Affine.apply, PyVal.hasIter, Bind.bind, Except.bind, Option.bind]
  · intro T x y h
    refine ⟨[⌊-T.d * (1/T.det) * x + T.a * (1/T.det) * y +
        (-T.c * (-T.d * (1/T.det)) - T.f * (T.a * (1/T.det)))⌋],
      [⌊T.e * (1/T.det) * x + -T.b * (1/T.det) * y +
        (-T.c * (T.e * (1/T.det)) - T.f * (-T.b * (1/T.det)))⌋], ?_⟩
    norm_num [rowcolF, rowcolM, affineTransformerInit, ensureArrInput,
      PyVal.atleast1d, PyVal.shape, bcastShape, bcastShapeRev, bcastDim, toLen,
      catchTypeError, affineTransform, reverseDir, affine_inv_of_det_ne T h,
      Affine.apply, PyVal.hasIter, Bind.bind, Except.bind, Option.bind]
  · intro T x y z h
    refine ⟨[⌊-T.d * (1/T.det) * x + T.a * (1/T.det) * y +
        (-T.c * (-T.d * (1/T.det)) - T.f * (T.a * (1/T.det)))⌋],
      [⌊T.e * (1/T.det) * x + -T.b * (1/T.det) * y +
        (-T.c * (T.e * (1/T.det)) - T.f * (-T.b * (1/T.det)))⌋], ?_⟩
    norm_num [rowcolF, rowcolM, affineTransformerInit, ensureArrInput,
      PyVal.atleast1d, PyVal.shape, bcastShape, bcastShapeRev, bcastDim, toLen,
      catchTypeError, affineTransform, reverseDir, affine_inv_of_det_ne T h,
      Affine.apply, PyVal.hasIter, Bind.bind, Except.bind, Option.bind]

/-- Witness for C9: the two det-hypothesis conjuncts applied to the identity
transform at (x, y, z) = (3, 4, 0). -/
theorem c9_shaping_iterability_witness :
    (∃ rows cols, rowcolF Affine.identity (.scalar 3) (.arr [4]) none
      (fun q => ⌊q⌋) none = (false, .ok (.lists rows cols))) ∧
    (∃ rows cols, rowcolF Affine.identity (.scalar 3) (.scalar 4)
      (some (.arr [0])) (fun q => ⌊q⌋) none =
        (false, .ok (.lists rows cols))) :=
  ⟨c9_shaping_iterability.2.2.1 Affine.identity 3 4
     (by norm_num [Affine.det, Affine.identity]),
   c9_shaping_iterability.2.2.2 Affine.identity 3 4 0
     (by norm_num [Affine.det, Affine.identity])⟩

/-- C10: with b = d = 0 array_bounds returns (c, f + e*height, c + a*width, f)
without reordering - so west exceeds east when a < 0 and width > 0, and south
exceeds north when e > 0 and height > 0 - and with b or d nonzero it returns
the min/max envelope of the four transformed corners. -/
theorem c10_array_bounds_unordered (h w : ℚ) (T : Affine) :
    (T.b = 0 → T.d = 0 →
      array_bounds h w T = (T.c, T.f + T.e * h, T.c + T.a * w, T.f) ∧
      (T.a < 0 → 0 < w → T.c + T.a * w < T.c) ∧
      (0 < T.e → 0 < h → T.f < T.f + T.e * h)) ∧
    (T.b ≠ 0 ∨ T.d ≠ 0 →
      array_bounds h w T =
        (min (min (min (T.apply 0 0).1 (T.apply 0 h).1) (T.apply w h).1)
          (T.apply w 0).1,
         min (min (min (T.apply 0 0).2 (T.apply 0 h).2) (T.apply w h).2)
          (T.apply w 0).2,
         max (max (max (T.apply 0 0).1 (T.apply 0 h).1) (T.apply w h).1)
          (T.apply w 0).1,
         max (max (max (T.apply 0 0).2 (T.apply 0 h).2) (T.apply w h).2)
          (T.apply w 0).2)) := by
  constructor
  · intro hb hd
    refine ⟨by simp [array_bounds, hb, hd], fun ha hw => ?_, fun he hh => ?_⟩
    · nlinarith
    · nlinarith
  · intro hbd
    have hcond : ¬ (T.b = 0 ∧ T.d = 0) := by tauto
    unfold array_bounds
    rw [if_neg hcond]
    simp [Affine.apply]

/-- Witness for C10: the axis-aligned branch at Affine(-1, 0, 5, 0, 1, 7)
with height 2 and width 3, and the rotated branch at Affine(1, 1, 0, 1, 1, 0)
with height 1 and width 1. -/
theorem c10_array_bounds_unordered_witness :
    array_bounds 2 3 (Affine.mk (-1) 0 5 0 1 7) = (5, 9, 2, 7) ∧
    (2 : ℚ) < 5 ∧ (7 : ℚ) < 9 ∧
    array_bounds 1 1 (Affine.mk 1 1 0 1 1 0) = (0, 0, 2, 2) := by
  obtain ⟨hmain, hlt1, hlt2⟩ :=
    (c10_array_bounds_unordered 2 3 (Affine.mk (-1) 0 5 0 1 7)).1 rfl rfl
  have hm := (c10_array_bounds_unordered 1 1 (Affine.mk 1 1 0 1 1 0)).2
    (Or.inl (by norm_num))
  have h1 : (5 : ℚ) + (-1) * 3 < 5 := hlt1 (by norm_num) (by norm_num)
  have h2 : (7 : ℚ) < 7 + 1 * 2 := hlt2 (by norm_num) (by norm_num)
  norm_num at hmain
  norm_num [Affine.apply, min_def, max_def] at hm
  refine ⟨hmain, by linarith, by linarith, hm⟩
